import Mathlib

/-
  Shallow embedding of the Tone-composer front-end generation controller.

  The repository has two React components with the same controller shape:
  the AITone page (fast ABC-then-WAV mode and direct audio mode) and the
  Chatbot page (HF-backed ABC-then-WAV only).  Component state is embedded
  as an explicit record; every effect of a handler (network calls, state
  setters, blob-URL creation and revocation, file downloads) is recorded
  as an event, and a handler is embedded as the list of events it emits.
  React closure semantics are respected: an async handler reads the state
  captured at invocation time, never a mid-invocation update; the state
  after the handler is the fold of its event list over the initial state.
  Network outcomes are supplied by an oracle from endpoints and payloads
  to results, so a handler is a pure function of state and oracle.
-/

namespace ToneComposer

/-- Binary response bodies (Blob contents) as byte lists. -/
abbrev Bytes := List Nat

/-- A thrown JavaScript value: an Error carrying a message, or any other
value (for which the catch block substitutes a generic fallback). -/
structure JsErr where
  isError : Bool
  message : String
  deriving DecidableEq

/-- Generation mode of the AITone page: "fast" (ABC then WAV) or "direct". -/
inductive Mode where
  | fast
  | direct
  deriving DecidableEq

/-- Export kind accepted by onDownload. -/
inductive Kind where
  | wav
  | midi
  deriving DecidableEq

/-- Request payloads sent to the backend, with the exact field lists the
source passes to postJSON / postBlob. -/
inductive Payload where
  | geminiAbc (prompt key meter unit_note_length : String) (bars : Rat)
  | hfAbc (prompt : String) (top_p temperature max_length : Rat)
  | abcOnly (abc : String)
  | direct (prompt : String) (bpm density brightness guidance duration_seconds : Rat)
  deriving DecidableEq

/-- Observable effects of a handler, in program order: network calls,
React state setters, blob-URL lifecycle operations, file downloads. -/
inductive Ev where
  | callJSON (endpoint : String) (payload : Payload)
  | callBlob (endpoint : String) (payload : Payload)
  | setAbc (v : Option String)
  | setAudioUrl (v : Option Nat)
  | revoke (h : Nat)
  | create (h : Nat) (b : Bytes)
  | setError (v : Option String)
  | setLoading (b : Bool)
  | download (filename : String) (b : Bytes)
  deriving DecidableEq

/-- The session-relevant component state shared by both pages: loading
flag, error message, abc text, current audio object-URL handle, plus the
blob bookkeeping (fresh-handle counter and the set of live object URLs). -/
structure Core where
  loading : Bool
  error : Option String
  abc : Option String
  audioUrl : Option Nat
  nextHandle : Nat
  live : List (Nat × Bytes)
  deriving DecidableEq

/-- Initial component state: useState(false), useState(null), ... -/
def initCore : Core :=
  { loading := false, error := none, abc := none, audioUrl := none,
    nextHandle := 0, live := [] }

/-- Outcome of each network call as a function of endpoint and payload.
postJSON results are modelled by the abc field extracted from the parsed
body; any transport or parse failure is the error case. -/
structure Oracle where
  json : String → Payload → Except JsErr String
  blob : String → Payload → Except JsErr Bytes

/-- Effect of one event on the component state. -/
def applyEv (c : Core) : Ev → Core
  | Ev.callJSON _ _ => c
  | Ev.callBlob _ _ => c
  | Ev.setAbc v => { c with abc := v }
  | Ev.setAudioUrl v => { c with audioUrl := v }
  | Ev.revoke h => { c with live := c.live.filter (fun p => p.1 != h) }
  | Ev.create h b => { c with live := c.live ++ [(h, b)], nextHandle := h + 1 }
  | Ev.setError v => { c with error := v }
  | Ev.setLoading b => { c with loading := b }
  | Ev.download _ _ => c

/-- State after a list of events. -/
def applyTrace (c : Core) (t : List Ev) : Core := t.foldl applyEv c

/-- The catch block of onGenerate: e instanceof Error ? e.message :
"Generation failed". -/
def errMsg (e : JsErr) : String :=
  if e.isError then e.message else "Generation failed"

/-- if (audioUrl) URL.revokeObjectURL(audioUrl); setAudioUrl(URL.createObjectURL(wav)):
release the previous handle (when present), allocate a fresh one for the
new bytes, and publish it. -/
def publishEvs (c : Core) (b : Bytes) : List Ev :=
  (match c.audioUrl with
   | some h => [Ev.revoke h]
   | none => []) ++
  [Ev.create c.nextHandle b, Ev.setAudioUrl (some c.nextHandle)]

/-- downloadBlob: create an object URL for the blob, click an anchor with
the given filename (the download side effect), then revoke the URL. -/
def downloadBlob (h : Nat) (b : Bytes) (filename : String) : List Ev :=
  [Ev.create h b, Ev.download filename b, Ev.revoke h]

/-- Export endpoint /api/abc/audio/wav or /api/abc/audio/midi, shared by
both pages. -/
def exportEndpoint (k : Kind) : String :=
  match k with
  | Kind.wav => "/api/abc/audio/wav"
  | Kind.midi => "/api/abc/audio/midi"

namespace AITone

/-- UI parameters of the AITone page (mode selector and all sliders and
inputs); numbers are JavaScript numbers, all unchanged by the handlers. -/
structure Params where
  mode : Mode
  prompt : String
  keySig : String
  meter : String
  bars : Rat
  bpm : Rat
  density : Rat
  brightness : Rat
  guidance : Rat
  duration : Rat
  deriving DecidableEq

/-- Full AITone component state: UI parameters plus session core. -/
structure State where
  params : Params
  core : Core
  deriving DecidableEq

/-- Body sent to /api/gemini/abc: prompt, key, meter, unit_note_length "1/8", bars. -/
def fastPayload (s : State) : Payload :=
  Payload.geminiAbc s.params.prompt s.params.keySig s.params.meter "1/8" s.params.bars

/-- Body sent to /api/gemini/audio/wav: prompt, bpm, density, brightness,
guidance, duration_seconds. -/
def directPayload (s : State) : Payload :=
  Payload.direct s.params.prompt s.params.bpm s.params.density s.params.brightness
    s.params.guidance s.params.duration

/-- runFast: postJSON to /api/gemini/abc, then setAbc(res.abc), then
postBlob to /api/abc/audio/wav with exactly that abc, then revoke the
previous URL and publish a fresh one.  Returns the emitted events and the
thrown error, if any (a failed call throws and aborts the rest). -/
def runFast (s : State) (o : Oracle) : List Ev × Option JsErr :=
  let p := fastPayload s
  match o.json "/api/gemini/abc" p with
  | Except.error e => ([Ev.callJSON "/api/gemini/abc" p], some e)
  | Except.ok a =>
    let p2 := Payload.abcOnly a
    let pre := [Ev.callJSON "/api/gemini/abc" p, Ev.setAbc (some a),
                Ev.callBlob "/api/abc/audio/wav" p2]
    match o.blob "/api/abc/audio/wav" p2 with
    | Except.error e => (pre, some e)
    | Except.ok wav => (pre ++ publishEvs s.core wav, none)

/-- runDirect: setAbc(null) first, then postBlob to /api/gemini/audio/wav
with the six direct parameters, then revoke the previous URL and publish
a fresh one. -/
def runDirect (s : State) (o : Oracle) : List Ev × Option JsErr :=
  let p := directPayload s
  let pre := [Ev.setAbc none, Ev.callBlob "/api/gemini/audio/wav" p]
  match o.blob "/api/gemini/audio/wav" p with
  | Except.error e => (pre, some e)
  | Except.ok wav => (pre ++ publishEvs s.core wav, none)

/-- onGenerate: setError(null); setLoading(true); run the mode's protocol;
catch sets the error message; finally setLoading(false). -/
def onGenerate (s : State) (o : Oracle) : List Ev :=
  let body :=
    match s.params.mode with
    | Mode.fast => runFast s o
    | Mode.direct => runDirect s o
  [Ev.setError none, Ev.setLoading true] ++ body.1 ++
    (match body.2 with
     | some e => [Ev.setError (some (errMsg e))]
     | none => []) ++
  [Ev.setLoading false]

/-- A click on the Generate button: disabled while loading, so a click
during an in-flight generation emits nothing. -/
def generateClick (s : State) (o : Oracle) : List Ev :=
  if s.core.loading then [] else onGenerate s o

/-- Fixed AITone download filename per kind: ai-tone.wav or ai-tone.mid. -/
def dlName (k : Kind) : String :=
  match k with
  | Kind.wav => "ai-tone.wav"
  | Kind.midi => "ai-tone.mid"

/-- onDownload(kind): if (!abc) return (JavaScript falsiness: null or the
empty string); otherwise postBlob to /api/abc/audio/kind with the current
abc and hand the bytes to downloadBlob with the fixed AITone filename.
A failed call throws out of the handler (no catch), emitting nothing more. -/
def onDownload (s : State) (o : Oracle) (k : Kind) : List Ev :=
  match s.core.abc with
  | none => []
  | some a =>
    if a = "" then []
    else
      let p := Payload.abcOnly a
      match o.blob (exportEndpoint k) p with
      | Except.error _ => [Ev.callBlob (exportEndpoint k) p]
      | Except.ok b =>
        Ev.callBlob (exportEndpoint k) p ::
          downloadBlob s.core.nextHandle b (dlName k)

/-- A session of sequential Generate clicks; before each click the user
may have changed the mode and parameters.  Returns the final core state
and the concatenated event trace. -/
def runSession (c : Core) : List (Params × Oracle) → Core × List Ev
  | [] => (c, [])
  | (p, o) :: rest =>
    let t := generateClick { params := p, core := c } o
    let r := runSession (applyTrace c t) rest
    (r.1, t ++ r.2)

end AITone

namespace Chatbot

/-- UI parameters of the Chatbot page. -/
structure Params where
  prompt : String
  topP : Rat
  temperature : Rat
  deriving DecidableEq

/-- Full Chatbot component state. -/
structure State where
  params : Params
  core : Core
  deriving DecidableEq

/-- Body sent to /api/hf/abc: prompt, top_p, temperature, max_length 1024. -/
def hfPayload (s : State) : Payload :=
  Payload.hfAbc s.params.prompt s.params.topP s.params.temperature 1024

/-- Chatbot onGenerate: setError(null); setLoading(true); postJSON to
/api/hf/abc; setAbc(res.abc); postBlob to /api/abc/audio/wav with that
abc; revoke the previous URL and publish a fresh one; catch sets the
error message; finally setLoading(false). -/
def onGenerate (s : State) (o : Oracle) : List Ev :=
  let p := hfPayload s
  let body : List Ev × Option JsErr :=
    match o.json "/api/hf/abc" p with
    | Except.error e => ([Ev.callJSON "/api/hf/abc" p], some e)
    | Except.ok a =>
      let p2 := Payload.abcOnly a
      let pre := [Ev.callJSON "/api/hf/abc" p, Ev.setAbc (some a),
                  Ev.callBlob "/api/abc/audio/wav" p2]
      match o.blob "/api/abc/audio/wav" p2 with
      | Except.error e => (pre, some e)
      | Except.ok wav => (pre ++ publishEvs s.core wav, none)
  [Ev.setError none, Ev.setLoading true] ++ body.1 ++
    (match body.2 with
     | some e => [Ev.setError (some (errMsg e))]
     | none => []) ++
  [Ev.setLoading false]

/-- A click on the Chatbot Generate button: disabled while loading. -/
def generateClick (s : State) (o : Oracle) : List Ev :=
  if s.core.loading then [] else onGenerate s o

/-- Fixed Chatbot download filename per kind: fusion.wav or fusion.mid. -/
def dlName (k : Kind) : String :=
  match k with
  | Kind.wav => "fusion.wav"
  | Kind.midi => "fusion.mid"

/-- Chatbot onDownload(kind): same guard and call as AITone, with the
fusion filenames. -/
def onDownload (s : State) (o : Oracle) (k : Kind) : List Ev :=
  match s.core.abc with
  | none => []
  | some a =>
    if a = "" then []
    else
      let p := Payload.abcOnly a
      match o.blob (exportEndpoint k) p with
      | Except.error _ => [Ev.callBlob (exportEndpoint k) p]
      | Except.ok b =>
        Ev.callBlob (exportEndpoint k) p ::
          downloadBlob s.core.nextHandle b (dlName k)

/-- A session of sequential Chatbot Generate clicks. -/
def runSession (c : Core) : List (Params × Oracle) → Core × List Ev
  | [] => (c, [])
  | (p, o) :: rest =>
    let t := generateClick { params := p, core := c } o
    let r := runSession (applyTrace c t) rest
    (r.1, t ++ r.2)

end Chatbot

/-- Handles allocated by create events, in order. -/
def createdHandles (t : List Ev) : List Nat :=
  t.filterMap (fun e =>
    match e with
    | Ev.create h _ => some h
    | _ => none)

/-- Whether an event is a revoke of the given handle. -/
def isRevoke (k : Nat) : Ev → Bool
  | Ev.revoke h => h == k
  | _ => false

/-- Number of revoke events for a given handle in a trace. -/
def revokeCount (t : List Ev) (k : Nat) : Nat :=
  (t.filter (isRevoke k)).length

/-- Network-call events of a trace. -/
def netCalls (t : List Ev) : List Ev :=
  t.filter (fun e =>
    match e with
    | Ev.callJSON _ _ => true
    | Ev.callBlob _ _ => true
    | _ => false)

/-- Events that neither allocate nor release nor publish an audio handle. -/
def handleNeutral : Ev → Bool
  | Ev.create _ _ => false
  | Ev.revoke _ => false
  | Ev.setAudioUrl _ => false
  | _ => true

/-- A trace with no handle-relevant events. -/
def HandleFree (t : List Ev) : Prop := ∀ e ∈ t, handleNeutral e = true

theorem applyTrace_nil (c : Core) : applyTrace c [] = c := rfl

theorem applyTrace_cons (c : Core) (e : Ev) (t : List Ev) :
    applyTrace c (e :: t) = applyTrace (applyEv c e) t := rfl

theorem applyTrace_append (c : Core) (t₁ t₂ : List Ev) :
    applyTrace c (t₁ ++ t₂) = applyTrace (applyTrace c t₁) t₂ :=
  List.foldl_append _ _ _ _

theorem createdHandles_append (t₁ t₂ : List Ev) :
    createdHandles (t₁ ++ t₂) = createdHandles t₁ ++ createdHandles t₂ := by
  simp [createdHandles]

theorem revokeCount_append (t₁ t₂ : List Ev) (k : Nat) :
    revokeCount (t₁ ++ t₂) k = revokeCount t₁ k + revokeCount t₂ k := by
  simp [revokeCount]

theorem netCalls_append (t₁ t₂ : List Ev) :
    netCalls (t₁ ++ t₂) = netCalls t₁ ++ netCalls t₂ := by
  simp [netCalls]

theorem handleNeutral_applyEv (c : Core) (e : Ev) (h : handleNeutral e = true) :
    (applyEv c e).audioUrl = c.audioUrl ∧ (applyEv c e).live = c.live ∧
      (applyEv c e).nextHandle = c.nextHandle := by
  cases e <;> first
    | exact ⟨rfl, rfl, rfl⟩
    | exact absurd h (by simp [handleNeutral])

theorem handleFree_applyTrace (c : Core) (t : List Ev) (h : HandleFree t) :
    (applyTrace c t).audioUrl = c.audioUrl ∧ (applyTrace c t).live = c.live ∧
      (applyTrace c t).nextHandle = c.nextHandle := by
  induction t generalizing c with
  | nil => exact ⟨rfl, rfl, rfl⟩
  | cons e t ih =>
    have he : handleNeutral e = true := h e (List.mem_cons_self e t)
    have ht : HandleFree t := fun x hx => h x (List.mem_cons_of_mem e hx)
    have h1 := handleNeutral_applyEv c e he
    have h2 := ih (applyEv c e) ht
    rw [applyTrace_cons]
    exact ⟨h2.1.trans h1.1, h2.2.1.trans h1.2.1, h2.2.2.trans h1.2.2⟩

theorem handleFree_created (t : List Ev) (h : HandleFree t) : createdHandles t = [] := by
  induction t with
  | nil => rfl
  | cons e t ih =>
    have he : handleNeutral e = true := h e (List.mem_cons_self e t)
    have ih2 := ih (fun x hx => h x (List.mem_cons_of_mem e hx))
    cases e <;> first
      | simpa [createdHandles] using ih2
      | exact absurd he (by simp [handleNeutral])

theorem handleFree_revokeCount (t : List Ev) (h : HandleFree t) (k : Nat) :
    revokeCount t k = 0 := by
  induction t with
  | nil => rfl
  | cons e t ih =>
    have he : handleNeutral e = true := h e (List.mem_cons_self e t)
    have ih2 := ih (fun x hx => h x (List.mem_cons_of_mem e hx))
    cases e <;> first
      | simpa [revokeCount, isRevoke] using ih2
      | exact absurd he (by simp [handleNeutral])

/-- audioUrl is only changed by a setAudioUrl event, and then to its value. -/
theorem audioUrl_applyTrace (c : Core) (t : List Ev) :
    (applyTrace c t).audioUrl = c.audioUrl ∨
      ∃ v, Ev.setAudioUrl v ∈ t ∧ (applyTrace c t).audioUrl = v := by
  induction t generalizing c with
  | nil => exact Or.inl rfl
  | cons e t ih =>
    rw [applyTrace_cons]
    rcases ih (applyEv c e) with h | ⟨v, hv, hv2⟩
    · cases e <;> first
        | exact Or.inl (by simpa [applyEv] using h)
        | exact Or.inr ⟨_, List.mem_cons_self _ _, by simpa [applyEv] using h⟩
    · exact Or.inr ⟨v, List.mem_cons_of_mem _ hv, hv2⟩

/-- Handle-accounting invariant of a session: the trace T so far has
allocated exactly the handles below the fresh-handle counter; handles not
yet allocated have never been revoked; and either no audio URL is
published and every allocated handle was revoked exactly once, or the
published handle is live, never revoked, and every other allocated handle
was revoked exactly once. -/
def HandleInv (c : Core) (T : List Ev) : Prop :=
  createdHandles T = List.range c.nextHandle ∧
  (∀ h, c.nextHandle ≤ h → revokeCount T h = 0) ∧
  ((c.audioUrl = none ∧ c.live = [] ∧ ∀ h, h < c.nextHandle → revokeCount T h = 1) ∨
   (∃ h b, c.audioUrl = some h ∧ c.live = [(h, b)] ∧ h < c.nextHandle ∧
     revokeCount T h = 0 ∧ ∀ k, k < c.nextHandle → k ≠ h → revokeCount T k = 1))

theorem HandleInv.extend_free {c : Core} {T : List Ev} (hi : HandleInv c T)
    {t : List Ev} (hf : HandleFree t) : HandleInv (applyTrace c t) (T ++ t) := by
  obtain ⟨hc, hr, hrest⟩ := hi
  obtain ⟨ha, hl, hn⟩ := handleFree_applyTrace c t hf
  refine ⟨?_, ?_, ?_⟩
  · rw [createdHandles_append, handleFree_created t hf, hn, hc, List.append_nil]
  · intro h hh
    rw [hn] at hh
    rw [revokeCount_append, handleFree_revokeCount t hf, hr h hh]
  · rw [ha, hl, hn]
    rcases hrest with ⟨h1, h2, h3⟩ | ⟨h, b, h1, h2, h3, h4, h5⟩
    · exact Or.inl ⟨h1, h2, fun k hk => by
        rw [revokeCount_append, handleFree_revokeCount t hf, h3 k hk]⟩
    · exact Or.inr ⟨h, b, h1, h2, h3,
        by rw [revokeCount_append, handleFree_revokeCount t hf, h4],
        fun k hk hkh => by
          rw [revokeCount_append, handleFree_revokeCount t hf, h5 k hk hkh]⟩

theorem HandleInv.extend_publish {c : Core} {T : List Ev} (hi : HandleInv c T)
    {pre post : List Ev} (hpre : HandleFree pre) (hpost : HandleFree post) (b : Bytes) :
    HandleInv (applyTrace c (pre ++ publishEvs c b ++ post))
      (T ++ (pre ++ publishEvs c b ++ post)) := by
  obtain ⟨hc, hr, hrest⟩ := hi
  obtain ⟨ha1, hl1, hn1⟩ := handleFree_applyTrace c pre hpre
  obtain ⟨ha3, hl3, hn3⟩ :=
    handleFree_applyTrace (applyTrace (applyTrace c pre) (publishEvs c b)) post hpost
  have hcre : createdHandles pre = [] := handleFree_created pre hpre
  have hcro : createdHandles post = [] := handleFree_created post hpost
  have hrce : ∀ k, revokeCount pre k = 0 := handleFree_revokeCount pre hpre
  have hrco : ∀ k, revokeCount post k = 0 := handleFree_revokeCount post hpost
  rcases hrest with ⟨h1, h2, h3⟩ | ⟨h₀, b₀, h1, h2, h3, h4, h5⟩
  · have hpub : publishEvs c b =
        [Ev.create c.nextHandle b, Ev.setAudioUrl (some c.nextHandle)] := by
      simp [publishEvs, h1]
    have hmidA : (applyTrace (applyTrace c pre) (publishEvs c b)).audioUrl =
        some c.nextHandle := by
      rw [hpub]; simp [applyTrace_cons, applyTrace_nil, applyEv]
    have hmidL : (applyTrace (applyTrace c pre) (publishEvs c b)).live =
        [(c.nextHandle, b)] := by
      rw [hpub]; simp [applyTrace_cons, applyTrace_nil, applyEv, hl1, h2]
    have hmidN : (applyTrace (applyTrace c pre) (publishEvs c b)).nextHandle =
        c.nextHandle + 1 := by
      rw [hpub]; simp [applyTrace_cons, applyTrace_nil, applyEv]
    have hpubC : createdHandles (publishEvs c b) = [c.nextHandle] := by
      rw [hpub]; simp [createdHandles]
    have hpubR : ∀ k, revokeCount (publishEvs c b) k = 0 := by
      intro k; rw [hpub]; simp [revokeCount, isRevoke]
    rw [applyTrace_append, applyTrace_append]
    refine ⟨?_, ?_, Or.inr ⟨c.nextHandle, b, ?_, ?_, ?_, ?_, ?_⟩⟩
    · rw [hn3, hmidN]
      simp [createdHandles_append, hc, hcre, hpubC, hcro, List.range_succ]
    · intro h hh
      rw [hn3, hmidN] at hh
      simp [revokeCount_append, hrce, hpubR, hrco]
      exact hr h (le_trans (Nat.le_succ _) hh)
    · rw [ha3, hmidA]
    · rw [hl3, hmidL]
    · rw [hn3, hmidN]; exact Nat.lt_succ_self _
    · simp [revokeCount_append, hrce, hpubR, hrco]
      exact hr c.nextHandle (le_refl _)
    · intro k hk hkn
      rw [hn3, hmidN] at hk
      have hklt : k < c.nextHandle := by omega
      simp [revokeCount_append, hrce, hpubR, hrco]
      exact h3 k hklt
  · have hpub : publishEvs c b =
        [Ev.revoke h₀, Ev.create c.nextHandle b, Ev.setAudioUrl (some c.nextHandle)] := by
      simp [publishEvs, h1]
    have hmidA : (applyTrace (applyTrace c pre) (publishEvs c b)).audioUrl =
        some c.nextHandle := by
      rw [hpub]; simp [applyTrace_cons, applyTrace_nil, applyEv]
    have hmidL : (applyTrace (applyTrace c pre) (publishEvs c b)).live =
        [(c.nextHandle, b)] := by
      rw [hpub]; simp [applyTrace_cons, applyTrace_nil, applyEv, hl1, h2]
    have hmidN : (applyTrace (applyTrace c pre) (publishEvs c b)).nextHandle =
        c.nextHandle + 1 := by
      rw [hpub]; simp [applyTrace_cons, applyTrace_nil, applyEv]
    have hpubC : createdHandles (publishEvs c b) = [c.nextHandle] := by
      rw [hpub]; simp [createdHandles]
    have hpubR : ∀ k, revokeCount (publishEvs c b) k = if h₀ = k then 1 else 0 := by
      intro k
      rw [hpub]
      by_cases hk : h₀ = k <;> simp [revokeCount, isRevoke, hk]
    rw [applyTrace_append, applyTrace_append]
    refine ⟨?_, ?_, Or.inr ⟨c.nextHandle, b, ?_, ?_, ?_, ?_, ?_⟩⟩
    · rw [hn3, hmidN]
      simp [createdHandles_append, hc, hcre, hpubC, hcro, List.range_succ]
    · intro h hh
      rw [hn3, hmidN] at hh
      have hne : h₀ ≠ h := by omega
      simp [revokeCount_append, hrce, hpubR, hrco, hne]
      exact hr h (le_trans (Nat.le_succ _) hh)
    · rw [ha3, hmidA]
    · rw [hl3, hmidL]
    · rw [hn3, hmidN]; exact Nat.lt_succ_self _
    · have hne : h₀ ≠ c.nextHandle := Nat.ne_of_lt h3
      simp [revokeCount_append, hrce, hpubR, hrco, hne]
      exact hr c.nextHandle (le_refl _)
    · intro k hk hkn
      rw [hn3, hmidN] at hk
      have hklt : k < c.nextHandle := by omega
      by_cases hkh : k = h₀
      · subst hkh
        simp [revokeCount_append, hrce, hpubR, hrco, h4]
      · have hne : h₀ ≠ k := fun hh => hkh hh.symm
        simp [revokeCount_append, hrce, hpubR, hrco, hne]
        exact h5 k hklt hkh

/-- The empty session satisfies the handle invariant. -/
theorem handleInv_init : HandleInv initCore [] :=
  ⟨rfl, fun _ _ => rfl,
    Or.inl ⟨rfl, rfl, fun h hh => absurd hh (Nat.not_lt_zero h)⟩⟩

/-- One AITone Generate click preserves the handle invariant. -/
theorem AITone.aiStepInv {c : Core} {T : List Ev} (p : AITone.Params) (o : Oracle)
    (hi : HandleInv c T) :
    HandleInv (applyTrace c (AITone.generateClick { params := p, core := c } o))
      (T ++ AITone.generateClick { params := p, core := c } o) := by
  set s : AITone.State := { params := p, core := c } with hs
  by_cases hl : c.loading
  · have ht : AITone.generateClick s o = [] := by
      simp [AITone.generateClick, hs, hl]
    rw [ht]
    simpa using hi
  · cases hm : p.mode with
    | fast =>
      cases hj : o.json "/api/gemini/abc" (AITone.fastPayload s) with
      | error e =>
        have ht : AITone.generateClick s o =
            [Ev.setError none, Ev.setLoading true,
             Ev.callJSON "/api/gemini/abc" (AITone.fastPayload s),
             Ev.setError (some (errMsg e)), Ev.setLoading false] := by
          simp [AITone.generateClick, AITone.onGenerate, AITone.runFast, hs, hl, hm, hj]
        rw [ht]
        exact hi.extend_free (by simp [HandleFree, handleNeutral])
      | ok a =>
        cases hb : o.blob "/api/abc/audio/wav" (Payload.abcOnly a) with
        | error e =>
          have ht : AITone.generateClick s o =
              [Ev.setError none, Ev.setLoading true,
               Ev.callJSON "/api/gemini/abc" (AITone.fastPayload s),
               Ev.setAbc (some a), Ev.callBlob "/api/abc/audio/wav" (Payload.abcOnly a),
               Ev.setError (some (errMsg e)), Ev.setLoading false] := by
            simp [AITone.generateClick, AITone.onGenerate, AITone.runFast, hs, hl, hm, hj, hb]
          rw [ht]
          exact hi.extend_free (by simp [HandleFree, handleNeutral])
        | ok wav =>
          have ht : AITone.generateClick s o =
              [Ev.setError none, Ev.setLoading true,
               Ev.callJSON "/api/gemini/abc" (AITone.fastPayload s),
               Ev.setAbc (some a), Ev.callBlob "/api/abc/audio/wav" (Payload.abcOnly a)] ++
              publishEvs c wav ++ [Ev.setLoading false] := by
            simp [AITone.generateClick, AITone.onGenerate, AITone.runFast, hs, hl, hm, hj, hb]
          rw [ht]
          exact hi.extend_publish (by simp [HandleFree, handleNeutral])
            (by simp [HandleFree, handleNeutral]) wav
    | direct =>
      cases hb : o.blob "/api/gemini/audio/wav" (AITone.directPayload s) with
      | error e =>
        have ht : AITone.generateClick s o =
            [Ev.setError none, Ev.setLoading true, Ev.setAbc none,
             Ev.callBlob "/api/gemini/audio/wav" (AITone.directPayload s),
             Ev.setError (some (errMsg e)), Ev.setLoading false] := by
          simp [AITone.generateClick, AITone.onGenerate, AITone.runDirect, hs, hl, hm, hb]
        rw [ht]
        exact hi.extend_free (by simp [HandleFree, handleNeutral])
      | ok wav =>
        have ht : AITone.generateClick s o =
            [Ev.setError none, Ev.setLoading true, Ev.setAbc none,
             Ev.callBlob "/api/gemini/audio/wav" (AITone.directPayload s)] ++
            publishEvs c wav ++ [Ev.setLoading false] := by
          simp [AITone.generateClick, AITone.onGenerate, AITone.runDirect, hs, hl, hm, hb]
        rw [ht]
        exact hi.extend_publish (by simp [HandleFree, handleNeutral])
          (by simp [HandleFree, handleNeutral]) wav

/-- Any AITone session of sequential Generate clicks preserves the invariant. -/
theorem AITone.aiSessionInv (steps : List (AITone.Params × Oracle)) (c : Core) (T : List Ev)
    (hi : HandleInv c T) :
    HandleInv (AITone.runSession c steps).1 (T ++ (AITone.runSession c steps).2) := by
  induction steps generalizing c T with
  | nil => simpa [AITone.runSession] using hi
  | cons po rest ih =>
    obtain ⟨p, o⟩ := po
    have h1 := AITone.aiStepInv p o hi
    have h2 := ih (applyTrace c (AITone.generateClick { params := p, core := c } o))
      (T ++ AITone.generateClick { params := p, core := c } o) h1
    simpa [AITone.runSession, List.append_assoc] using h2

/-- One Chatbot Generate click preserves the handle invariant. -/
theorem Chatbot.chatStepInv {c : Core} {T : List Ev} (p : Chatbot.Params) (o : Oracle)
    (hi : HandleInv c T) :
    HandleInv (applyTrace c (Chatbot.generateClick { params := p, core := c } o))
      (T ++ Chatbot.generateClick { params := p, core := c } o) := by
  set s : Chatbot.State := { params := p, core := c } with hs
  by_cases hl : c.loading
  · have ht : Chatbot.generateClick s o = [] := by
      simp [Chatbot.generateClick, hs, hl]
    rw [ht]
    simpa using hi
  · cases hj : o.json "/api/hf/abc" (Chatbot.hfPayload s) with
    | error e =>
      have ht : Chatbot.generateClick s o =
          [Ev.setError none, Ev.setLoading true,
           Ev.callJSON "/api/hf/abc" (Chatbot.hfPayload s),
           Ev.setError (some (errMsg e)), Ev.setLoading false] := by
        simp [Chatbot.generateClick, Chatbot.onGenerate, hs, hl, hj]
      rw [ht]
      exact hi.extend_free (by simp [HandleFree, handleNeutral])
    | ok a =>
      cases hb : o.blob "/api/abc/audio/wav" (Payload.abcOnly a) with
      | error e =>
        have ht : Chatbot.generateClick s o =
            [Ev.setError none, Ev.setLoading true,
             Ev.callJSON "/api/hf/abc" (Chatbot.hfPayload s),
             Ev.setAbc (some a), Ev.callBlob "/api/abc/audio/wav" (Payload.abcOnly a),
             Ev.setError (some (errMsg e)), Ev.setLoading false] := by
          simp [Chatbot.generateClick, Chatbot.onGenerate, hs, hl, hj, hb]
        rw [ht]
        exact hi.extend_free (by simp [HandleFree, handleNeutral])
      | ok wav =>
        have ht : Chatbot.generateClick s o =
            [Ev.setError none, Ev.setLoading true,
             Ev.callJSON "/api/hf/abc" (Chatbot.hfPayload s),
             Ev.setAbc (some a), Ev.callBlob "/api/abc/audio/wav" (Payload.abcOnly a)] ++
            publishEvs c wav ++ [Ev.setLoading false] := by
          simp [Chatbot.generateClick, Chatbot.onGenerate, hs, hl, hj, hb]
        rw [ht]
        exact hi.extend_publish (by simp [HandleFree, handleNeutral])
          (by simp [HandleFree, handleNeutral]) wav

/-- Any Chatbot session of sequential Generate clicks preserves the invariant. -/
theorem Chatbot.chatSessionInv (steps : List (Chatbot.Params × Oracle)) (c : Core) (T : List Ev)
    (hi : HandleInv c T) :
    HandleInv (Chatbot.runSession c steps).1 (T ++ (Chatbot.runSession c steps).2) := by
  induction steps generalizing c T with
  | nil => simpa [Chatbot.runSession] using hi
  | cons po rest ih =>
    obtain ⟨p, o⟩ := po
    have h1 := Chatbot.chatStepInv p o hi
    have h2 := ih (applyTrace c (Chatbot.generateClick { params := p, core := c } o))
      (T ++ Chatbot.generateClick { params := p, core := c } o) h1
    simpa [Chatbot.runSession, List.append_assoc] using h2

/-- The claims of C4 follow from the invariant: at most one live handle,
and every allocated handle is revoked exactly once unless it is the one
currently published. -/
theorem HandleInv.conclusions {c : Core} {T : List Ev} (hi : HandleInv c T) :
    c.live.length ≤ 1 ∧
      ∀ h ∈ createdHandles T,
        (c.audioUrl = some h ∧ revokeCount T h = 0) ∨
        (c.audioUrl ≠ some h ∧ revokeCount T h = 1) := by
  obtain ⟨hc, _, hrest⟩ := hi
  rcases hrest with ⟨h1, h2, h3⟩ | ⟨h₀, b₀, h1, h2, h3, h4, h5⟩
  · refine ⟨by rw [h2]; exact Nat.zero_le 1, fun h hh => Or.inr ⟨?_, ?_⟩⟩
    · rw [h1]; exact fun hx => Option.noConfusion hx
    · rw [hc] at hh
      exact h3 h (List.mem_range.mp hh)
  · refine ⟨by rw [h2]; exact le_refl 1, fun h hh => ?_⟩
    rw [hc] at hh
    have hlt := List.mem_range.mp hh
    by_cases hhe : h = h₀
    · subst hhe
      exact Or.inl ⟨h1, h4⟩
    · refine Or.inr ⟨?_, h5 h hlt hhe⟩
      rw [h1]
      intro hx
      exact hhe (Option.some.inj hx).symm

/-
  Concrete fixtures used by witnesses and counterexamples.
-/

/-- Sample AITone parameters in fast mode. -/
def sampleFastParams : AITone.Params :=
  { mode := Mode.fast, prompt := "raga meditation", keySig := "D", meter := "4/4",
    bars := 16, bpm := 120, density := 0.8, brightness := 0.7, guidance := 4,
    duration := 12 }

/-- Sample AITone parameters in direct mode. -/
def sampleDirectParams : AITone.Params :=
  { sampleFastParams with mode := Mode.direct }

/-- A core state left by a previous successful fast generation: notation
"OLD" published, audio handle 0 live. -/
def sampleCore : Core :=
  { loading := false, error := none, abc := some "OLD", audioUrl := some 0,
    nextHandle := 1, live := [(0, [9])] }

/-- Oracle on which every call succeeds. -/
def okOracle : Oracle :=
  { json := fun _ _ => Except.ok "X:1", blob := fun _ _ => Except.ok [1, 2] }

/-- Oracle on which the JSON (notation) call throws a network Error. -/
def jsonFailOracle : Oracle :=
  { json := fun _ _ => Except.error { isError := true, message := "network error" },
    blob := fun _ _ => Except.ok [1, 2] }

/-- Oracle on which the notation call returns "NEW" and every binary call
throws. -/
def blobFailOracle : Oracle :=
  { json := fun _ _ => Except.ok "NEW",
    blob := fun _ _ => Except.error { isError := true, message := "render failed" } }

/-- Oracle on which the notation call succeeds with the empty string and
every binary call succeeds. -/
def emptyAbcOracle : Oracle :=
  { json := fun _ _ => Except.ok "", blob := fun _ _ => Except.ok [1] }

/-
  Claims.
-/

/-- C4: after any number of sequential Generate invocations in one session
(on either page, with arbitrary parameter and mode changes between
invocations and arbitrary network outcomes), at most one live AudioAsset
handle exists; every handle the session ever allocated and has since
superseded was revoked exactly once, and the currently published handle
was never revoked; and in a successful fast generation that supersedes a
previous handle, the revoke of the old handle occurs strictly before the
publication of the new one, on both pages. -/
theorem C4_at_most_one_live_handle :
    (∀ steps : List (AITone.Params × Oracle),
      (AITone.runSession initCore steps).1.live.length ≤ 1 ∧
      ∀ h ∈ createdHandles (AITone.runSession initCore steps).2,
        ((AITone.runSession initCore steps).1.audioUrl = some h ∧
          revokeCount (AITone.runSession initCore steps).2 h = 0) ∨
        ((AITone.runSession initCore steps).1.audioUrl ≠ some h ∧
          revokeCount (AITone.runSession initCore steps).2 h = 1)) ∧
    (∀ steps : List (Chatbot.Params × Oracle),
      (Chatbot.runSession initCore steps).1.live.length ≤ 1 ∧
      ∀ h ∈ createdHandles (Chatbot.runSession initCore steps).2,
        ((Chatbot.runSession initCore steps).1.audioUrl = some h ∧
          revokeCount (Chatbot.runSession initCore steps).2 h = 0) ∨
        ((Chatbot.runSession initCore steps).1.audioUrl ≠ some h ∧
          revokeCount (Chatbot.runSession initCore steps).2 h = 1)) ∧
    (∀ (s : AITone.State) (o : Oracle) (h : Nat) (a : String) (w : Bytes),
      s.core.audioUrl = some h →
      s.params.mode = Mode.fast →
      o.json "/api/gemini/abc" (AITone.fastPayload s) = Except.ok a →
      o.blob "/api/abc/audio/wav" (Payload.abcOnly a) = Except.ok w →
      ∃ i j : Nat, i < j ∧
        (AITone.onGenerate s o)[i]? = some (Ev.revoke h) ∧
        (AITone.onGenerate s o)[j]? = some (Ev.setAudioUrl (some s.core.nextHandle))) ∧
    (∀ (s : Chatbot.State) (o : Oracle) (h : Nat) (a : String) (w : Bytes),
      s.core.audioUrl = some h →
      o.json "/api/hf/abc" (Chatbot.hfPayload s) = Except.ok a →
      o.blob "/api/abc/audio/wav" (Payload.abcOnly a) = Except.ok w →
      ∃ i j : Nat, i < j ∧
        (Chatbot.onGenerate s o)[i]? = some (Ev.revoke h) ∧
        (Chatbot.onGenerate s o)[j]? = some (Ev.setAudioUrl (some s.core.nextHandle))) := by
  refine ⟨fun steps => ?_, fun steps => ?_, ?_, ?_⟩
  · exact (AITone.aiSessionInv steps initCore [] handleInv_init).conclusions
  · exact (Chatbot.chatSessionInv steps initCore [] handleInv_init).conclusions
  · intro s o h a w hau hm hj hb
    have ht : AITone.onGenerate s o =
        [Ev.setError none, Ev.setLoading true,
         Ev.callJSON "/api/gemini/abc" (AITone.fastPayload s),
         Ev.setAbc (some a), Ev.callBlob "/api/abc/audio/wav" (Payload.abcOnly a),
         Ev.revoke h, Ev.create s.core.nextHandle w,
         Ev.setAudioUrl (some s.core.nextHandle), Ev.setLoading false] := by
      simp [AITone.onGenerate, AITone.runFast, hm, hj, hb, publishEvs, hau]
    refine ⟨5, 7, by omega, ?_, ?_⟩ <;> rw [ht] <;> rfl
  · intro s o h a w hau hj hb
    have ht : Chatbot.onGenerate s o =
        [Ev.setError none, Ev.setLoading true,
         Ev.callJSON "/api/hf/abc" (Chatbot.hfPayload s),
         Ev.setAbc (some a), Ev.callBlob "/api/abc/audio/wav" (Payload.abcOnly a),
         Ev.revoke h, Ev.create s.core.nextHandle w,
         Ev.setAudioUrl (some s.core.nextHandle), Ev.setLoading false] := by
      simp [Chatbot.onGenerate, hj, hb, publishEvs, hau]
    refine ⟨5, 7, by omega, ?_, ?_⟩ <;> rw [ht] <;> rfl

/-- C4 witness: the release-before-publish part applied to a concrete
state that holds handle 0, with an all-success oracle. -/
theorem C4_witness :
    ∃ i j : Nat, i < j ∧
      (AITone.onGenerate { params := sampleFastParams, core := sampleCore } okOracle)[i]? =
        some (Ev.revoke 0) ∧
      (AITone.onGenerate { params := sampleFastParams, core := sampleCore } okOracle)[j]? =
        some (Ev.setAudioUrl (some 1)) :=
  C4_at_most_one_live_handle.2.2.1 { params := sampleFastParams, core := sampleCore }
    okOracle 0 "X:1" [1, 2] rfl rfl rfl rfl

/-- C5: a Generate click issued while the session is loading (a generation
is in flight) is ignored on both pages: it emits no events, so no network
call is made and the state is unchanged; and within one AITone generation,
loading is true at every proper intermediate point of the trace, so the
disabled-while-loading guard excludes a second in-flight generation. -/
theorem C5_mutual_exclusion :
    (∀ (s : AITone.State) (o : Oracle), s.core.loading = true →
      AITone.generateClick s o = [] ∧
      applyTrace s.core (AITone.generateClick s o) = s.core) ∧
    (∀ (s : Chatbot.State) (o : Oracle), s.core.loading = true →
      Chatbot.generateClick s o = [] ∧
      applyTrace s.core (Chatbot.generateClick s o) = s.core) ∧
    (∀ (s : AITone.State) (o : Oracle) (n : Nat),
      2 ≤ n → n < (AITone.onGenerate s o).length →
      (applyTrace s.core ((AITone.onGenerate s o).take n)).loading = true) := by
  refine ⟨?_, ?_, ?_⟩
  · intro s o hl
    have ht : AITone.generateClick s o = [] := by simp [AITone.generateClick, hl]
    exact ⟨ht, by rw [ht]; rfl⟩
  · intro s o hl
    have ht : Chatbot.generateClick s o = [] := by simp [Chatbot.generateClick, hl]
    exact ⟨ht, by rw [ht]; rfl⟩
  · intro s o n h2 hn
    cases hm : s.params.mode with
    | fast =>
      cases hj : o.json "/api/gemini/abc" (AITone.fastPayload s) with
      | error e =>
        have ht : AITone.onGenerate s o =
            [Ev.setError none, Ev.setLoading true,
             Ev.callJSON "/api/gemini/abc" (AITone.fastPayload s),
             Ev.setError (some (errMsg e)), Ev.setLoading false] := by
          simp [AITone.onGenerate, AITone.runFast, hm, hj]
        rw [ht] at hn ⊢
        simp only [List.length] at hn
        interval_cases n <;> simp [applyTrace, applyEv]
      | ok a =>
        cases hb : o.blob "/api/abc/audio/wav" (Payload.abcOnly a) with
        | error e =>
          have ht : AITone.onGenerate s o =
              [Ev.setError none, Ev.setLoading true,
               Ev.callJSON "/api/gemini/abc" (AITone.fastPayload s),
               Ev.setAbc (some a), Ev.callBlob "/api/abc/audio/wav" (Payload.abcOnly a),
               Ev.setError (some (errMsg e)), Ev.setLoading false] := by
            simp [AITone.onGenerate, AITone.runFast, hm, hj, hb]
          rw [ht] at hn ⊢
          simp only [List.length] at hn
          interval_cases n <;> simp [applyTrace, applyEv]
        | ok wav =>
          cases hau : s.core.audioUrl with
          | none =>
            have ht : AITone.onGenerate s o =
                [Ev.setError none, Ev.setLoading true,
                 Ev.callJSON "/api/gemini/abc" (AITone.fastPayload s),
                 Ev.setAbc (some a), Ev.callBlob "/api/abc/audio/wav" (Payload.abcOnly a),
                 Ev.create s.core.nextHandle wav,
                 Ev.setAudioUrl (some s.core.nextHandle), Ev.setLoading false] := by
              simp [AITone.onGenerate, AITone.runFast, hm, hj, hb, publishEvs, hau]
            rw [ht] at hn ⊢
            simp only [List.length] at hn
            interval_cases n <;> simp [applyTrace, applyEv]
          | some h =>
            have ht : AITone.onGenerate s o =
                [Ev.setError none, Ev.setLoading true,
                 Ev.callJSON "/api/gemini/abc" (AITone.fastPayload s),
                 Ev.setAbc (some a), Ev.callBlob "/api/abc/audio/wav" (Payload.abcOnly a),
                 Ev.revoke h, Ev.create s.core.nextHandle wav,
                 Ev.setAudioUrl (some s.core.nextHandle), Ev.setLoading false] := by
              simp [AITone.onGenerate, AITone.runFast, hm, hj, hb, publishEvs, hau]
            rw [ht] at hn ⊢
            simp only [List.length] at hn
            interval_cases n <;> simp [applyTrace, applyEv]
    | direct =>
      cases hb : o.blob "/api/gemini/audio/wav" (AITone.directPayload s) with
      | error e =>
        have ht : AITone.onGenerate s o =
            [Ev.setError none, Ev.setLoading true, Ev.setAbc none,
             Ev.callBlob "/api/gemini/audio/wav" (AITone.directPayload s),
             Ev.setError (some (errMsg e)), Ev.setLoading false] := by
          simp [AITone.onGenerate, AITone.runDirect, hm, hb]
        rw [ht] at hn ⊢
        simp only [List.length] at hn
        interval_cases n <;> simp [applyTrace, applyEv]
      | ok wav =>
        cases hau : s.core.audioUrl with
        | none =>
          have ht : AITone.onGenerate s o =
              [Ev.setError none, Ev.setLoading true, Ev.setAbc none,
               Ev.callBlob "/api/gemini/audio/wav" (AITone.directPayload s),
               Ev.create s.core.nextHandle wav,
               Ev.setAudioUrl (some s.core.nextHandle), Ev.setLoading false] := by
            simp [AITone.onGenerate, AITone.runDirect, hm, hb, publishEvs, hau]
          rw [ht] at hn ⊢
          simp only [List.length] at hn
          interval_cases n <;> simp [applyTrace, applyEv]
        | some h =>
          have ht : AITone.onGenerate s o =
              [Ev.setError none, Ev.setLoading true, Ev.setAbc none,
               Ev.callBlob "/api/gemini/audio/wav" (AITone.directPayload s),
               Ev.revoke h, Ev.create s.core.nextHandle wav,
               Ev.setAudioUrl (some s.core.nextHandle), Ev.setLoading false] := by
            simp [AITone.onGenerate, AITone.runDirect, hm, hb, publishEvs, hau]
          rw [ht] at hn ⊢
          simp only [List.length] at hn
          interval_cases n <;> simp [applyTrace, applyEv]

/-- C5 witness: a click in a loading state emits nothing and changes
nothing. -/
theorem C5_witness :
    AITone.generateClick
        { params := sampleFastParams, core := { sampleCore with loading := true } }
        okOracle = [] ∧
      applyTrace { sampleCore with loading := true }
        (AITone.generateClick
          { params := sampleFastParams, core := { sampleCore with loading := true } }
          okOracle) = { sampleCore with loading := true } :=
  C5_mutual_exclusion.1
    { params := sampleFastParams, core := { sampleCore with loading := true } }
    okOracle rfl

/-- Sample Chatbot parameters. -/
def sampleChatParams : Chatbot.Params :=
  { prompt := "raga fusion", topP := 0.9, temperature := 1 }

/-- C6: when the fast-mode notation call fails, no binary (render) call is
ever issued, the session ends Failed with the thrown Error message — or
the generic fallback string when the thrown value is not an Error — while
loading returns to false, and no audio handle is created or changed (the
rest of the state is exactly as before). -/
theorem C6_notation_call_failure :
    ∀ (s : AITone.State) (o : Oracle) (e : JsErr),
      s.params.mode = Mode.fast →
      o.json "/api/gemini/abc" (AITone.fastPayload s) = Except.error e →
      AITone.onGenerate s o =
        [Ev.setError none, Ev.setLoading true,
         Ev.callJSON "/api/gemini/abc" (AITone.fastPayload s),
         Ev.setError (some (if e.isError then e.message else "Generation failed")),
         Ev.setLoading false] ∧
      (∀ ep p, Ev.callBlob ep p ∉ AITone.onGenerate s o) ∧
      createdHandles (AITone.onGenerate s o) = [] ∧
      applyTrace s.core (AITone.onGenerate s o) =
        { s.core with
            error := some (if e.isError then e.message else "Generation failed"),
            loading := false } := by
  intro s o e hm hj
  have ht : AITone.onGenerate s o =
      [Ev.setError none, Ev.setLoading true,
       Ev.callJSON "/api/gemini/abc" (AITone.fastPayload s),
       Ev.setError (some (if e.isError then e.message else "Generation failed")),
       Ev.setLoading false] := by
    simp [AITone.onGenerate, AITone.runFast, hm, hj, errMsg]
  refine ⟨ht, ?_, ?_, ?_⟩
  · intro ep p hp
    rw [ht] at hp
    simp at hp
  · rw [ht]; rfl
  · rw [ht]; rfl

/-- C6 witness: notation call throws a network Error in fast mode. -/
theorem C6_witness :
    AITone.onGenerate { params := sampleFastParams, core := sampleCore } jsonFailOracle =
      [Ev.setError none, Ev.setLoading true,
       Ev.callJSON "/api/gemini/abc"
         (AITone.fastPayload { params := sampleFastParams, core := sampleCore }),
       Ev.setError (some "network error"), Ev.setLoading false] ∧
    (∀ ep p, Ev.callBlob ep p ∉
      AITone.onGenerate { params := sampleFastParams, core := sampleCore } jsonFailOracle) ∧
    createdHandles
      (AITone.onGenerate { params := sampleFastParams, core := sampleCore } jsonFailOracle) = [] ∧
    applyTrace sampleCore
      (AITone.onGenerate { params := sampleFastParams, core := sampleCore } jsonFailOracle) =
      { sampleCore with error := some "network error", loading := false } :=
  C6_notation_call_failure { params := sampleFastParams, core := sampleCore }
    jsonFailOracle { isError := true, message := "network error" } rfl rfl

/-- C7: an export requested while no notation is published is a complete
no-op on both pages: the handler emits no events — hence no network call
and no download — and the state is unchanged. -/
theorem C7_export_without_abc :
    ∀ (s : AITone.State) (s2 : Chatbot.State) (o o2 : Oracle) (k k2 : Kind),
      s.core.abc = none → s2.core.abc = none →
      AITone.onDownload s o k = [] ∧
      applyTrace s.core (AITone.onDownload s o k) = s.core ∧
      Chatbot.onDownload s2 o2 k2 = [] ∧
      applyTrace s2.core (Chatbot.onDownload s2 o2 k2) = s2.core := by
  intro s s2 o o2 k k2 h1 h2
  have t1 : AITone.onDownload s o k = [] := by simp [AITone.onDownload, h1]
  have t2 : Chatbot.onDownload s2 o2 k2 = [] := by simp [Chatbot.onDownload, h2]
  exact ⟨t1, by rw [t1]; rfl, t2, by rw [t2]; rfl⟩

/-- C7 witness: export with no notation on a fresh session. -/
theorem C7_witness :
    AITone.onDownload { params := sampleFastParams, core := initCore } okOracle Kind.wav = [] ∧
    applyTrace initCore
      (AITone.onDownload { params := sampleFastParams, core := initCore } okOracle Kind.wav) =
      initCore ∧
    Chatbot.onDownload { params := sampleChatParams, core := initCore } okOracle Kind.midi = [] ∧
    applyTrace initCore
      (Chatbot.onDownload { params := sampleChatParams, core := initCore } okOracle Kind.midi) =
      initCore :=
  C7_export_without_abc { params := sampleFastParams, core := initCore }
    { params := sampleChatParams, core := initCore } okOracle okOracle Kind.wav Kind.midi
    rfl rfl

/-- C10: when the export call fails, the failure is not caught: on both
pages the only event is the network call itself, so no Failed message is
published, the session state (notation, audio handle, status, live
handles) is unchanged, and no download occurs. -/
theorem C10_export_failure_uncaught :
    ∀ (s : AITone.State) (s2 : Chatbot.State) (o o2 : Oracle) (k k2 : Kind)
      (a a2 : String) (e e2 : JsErr),
      s.core.abc = some a → a ≠ "" →
      o.blob (exportEndpoint k) (Payload.abcOnly a) = Except.error e →
      s2.core.abc = some a2 → a2 ≠ "" →
      o2.blob (exportEndpoint k2) (Payload.abcOnly a2) = Except.error e2 →
      AITone.onDownload s o k = [Ev.callBlob (exportEndpoint k) (Payload.abcOnly a)] ∧
      applyTrace s.core (AITone.onDownload s o k) = s.core ∧
      (∀ f b, Ev.download f b ∉ AITone.onDownload s o k) ∧
      (∀ v, Ev.setError v ∉ AITone.onDownload s o k) ∧
      Chatbot.onDownload s2 o2 k2 = [Ev.callBlob (exportEndpoint k2) (Payload.abcOnly a2)] ∧
      applyTrace s2.core (Chatbot.onDownload s2 o2 k2) = s2.core ∧
      (∀ f b, Ev.download f b ∉ Chatbot.onDownload s2 o2 k2) ∧
      (∀ v, Ev.setError v ∉ Chatbot.onDownload s2 o2 k2) := by
  intro s s2 o o2 k k2 a a2 e e2 h1 hne1 hb1 h2 hne2 hb2
  have t1 : AITone.onDownload s o k =
      [Ev.callBlob (exportEndpoint k) (Payload.abcOnly a)] := by
    simp [AITone.onDownload, h1, hne1, hb1]
  have t2 : Chatbot.onDownload s2 o2 k2 =
      [Ev.callBlob (exportEndpoint k2) (Payload.abcOnly a2)] := by
    simp [Chatbot.onDownload, h2, hne2, hb2]
  refine ⟨t1, by rw [t1]; rfl, ?_, ?_, t2, by rw [t2]; rfl, ?_, ?_⟩
  · intro f b hp
    rw [t1] at hp
    simp at hp
  · intro v hp
    rw [t1] at hp
    simp at hp
  · intro f b hp
    rw [t2] at hp
    simp at hp
  · intro v hp
    rw [t2] at hp
    simp at hp

/-- C10 witness: export of the published notation "OLD" with a failing
binary endpoint, on both pages. -/
theorem C10_witness :
    AITone.onDownload { params := sampleFastParams, core := sampleCore }
        blobFailOracle Kind.wav =
      [Ev.callBlob (exportEndpoint Kind.wav) (Payload.abcOnly "OLD")] ∧
    applyTrace sampleCore
      (AITone.onDownload { params := sampleFastParams, core := sampleCore }
        blobFailOracle Kind.wav) = sampleCore ∧
    (∀ f b, Ev.download f b ∉
      AITone.onDownload { params := sampleFastParams, core := sampleCore }
        blobFailOracle Kind.wav) ∧
    (∀ v, Ev.setError v ∉
      AITone.onDownload { params := sampleFastParams, core := sampleCore }
        blobFailOracle Kind.wav) ∧
    Chatbot.onDownload { params := sampleChatParams, core := sampleCore }
        blobFailOracle Kind.midi =
      [Ev.callBlob (exportEndpoint Kind.midi) (Payload.abcOnly "OLD")] ∧
    applyTrace sampleCore
      (Chatbot.onDownload { params := sampleChatParams, core := sampleCore }
        blobFailOracle Kind.midi) = sampleCore ∧
    (∀ f b, Ev.download f b ∉
      Chatbot.onDownload { params := sampleChatParams, core := sampleCore }
        blobFailOracle Kind.midi) ∧
    (∀ v, Ev.setError v ∉
      Chatbot.onDownload { params := sampleChatParams, core := sampleCore }
        blobFailOracle Kind.midi) :=
  C10_export_failure_uncaught { params := sampleFastParams, core := sampleCore }
    { params := sampleChatParams, core := sampleCore } blobFailOracle blobFailOracle
    Kind.wav Kind.midi "OLD" "OLD"
    { isError := true, message := "render failed" }
    { isError := true, message := "render failed" }
    rfl (by decide) rfl rfl (by decide) rfl

/-- C3: a successful direct-mode generation issues exactly one network
call — the binary call carrying prompt, bpm, density, brightness,
guidance and duration_seconds — and afterwards the published notation is
cleared regardless of what it held before, the session publishes a fresh
handle holding the audio returned by that call, the error is cleared and
loading is off. -/
theorem C3_direct_success :
    ∀ (s : AITone.State) (o : Oracle) (w : Bytes),
      s.params.mode = Mode.direct →
      o.blob "/api/gemini/audio/wav" (AITone.directPayload s) = Except.ok w →
      netCalls (AITone.onGenerate s o) =
        [Ev.callBlob "/api/gemini/audio/wav"
          (Payload.direct s.params.prompt s.params.bpm s.params.density
            s.params.brightness s.params.guidance s.params.duration)] ∧
      (applyTrace s.core (AITone.onGenerate s o)).abc = none ∧
      (applyTrace s.core (AITone.onGenerate s o)).audioUrl = some s.core.nextHandle ∧
      (s.core.nextHandle, w) ∈ (applyTrace s.core (AITone.onGenerate s o)).live ∧
      (applyTrace s.core (AITone.onGenerate s o)).error = none ∧
      (applyTrace s.core (AITone.onGenerate s o)).loading = false := by
  intro s o w hm hb
  cases hau : s.core.audioUrl with
  | none =>
    have ht : AITone.onGenerate s o =
        [Ev.setError none, Ev.setLoading true, Ev.setAbc none,
         Ev.callBlob "/api/gemini/audio/wav" (AITone.directPayload s),
         Ev.create s.core.nextHandle w,
         Ev.setAudioUrl (some s.core.nextHandle), Ev.setLoading false] := by
      simp [AITone.onGenerate, AITone.runDirect, hm, hb, publishEvs, hau]
    rw [ht]
    refine ⟨by simp [netCalls, AITone.directPayload], rfl, rfl, ?_, rfl, rfl⟩
    simp [applyTrace, applyEv]
  | some h =>
    have ht : AITone.onGenerate s o =
        [Ev.setError none, Ev.setLoading true, Ev.setAbc none,
         Ev.callBlob "/api/gemini/audio/wav" (AITone.directPayload s),
         Ev.revoke h, Ev.create s.core.nextHandle w,
         Ev.setAudioUrl (some s.core.nextHandle), Ev.setLoading false] := by
      simp [AITone.onGenerate, AITone.runDirect, hm, hb, publishEvs, hau]
    rw [ht]
    refine ⟨by simp [netCalls, AITone.directPayload], rfl, rfl, ?_, rfl, rfl⟩
    simp [applyTrace, applyEv]

/-- C3 witness: a successful direct generation over a state holding a
previous notation and audio handle. -/
theorem C3_witness :
    netCalls (AITone.onGenerate { params := sampleDirectParams, core := sampleCore } okOracle) =
      [Ev.callBlob "/api/gemini/audio/wav"
        (Payload.direct sampleDirectParams.prompt sampleDirectParams.bpm
          sampleDirectParams.density sampleDirectParams.brightness
          sampleDirectParams.guidance sampleDirectParams.duration)] ∧
    (applyTrace sampleCore
      (AITone.onGenerate { params := sampleDirectParams, core := sampleCore } okOracle)).abc =
      none ∧
    (applyTrace sampleCore
      (AITone.onGenerate { params := sampleDirectParams, core := sampleCore } okOracle)).audioUrl =
      some 1 ∧
    (1, [1, 2]) ∈ (applyTrace sampleCore
      (AITone.onGenerate { params := sampleDirectParams, core := sampleCore } okOracle)).live ∧
    (applyTrace sampleCore
      (AITone.onGenerate { params := sampleDirectParams, core := sampleCore } okOracle)).error =
      none ∧
    (applyTrace sampleCore
      (AITone.onGenerate { params := sampleDirectParams, core := sampleCore } okOracle)).loading =
      false :=
  C3_direct_success { params := sampleDirectParams, core := sampleCore } okOracle [1, 2]
    rfl rfl

/-- C1 counterexample: when the notation endpoint returns the empty
string, both calls succeed and the published NotationArtifact is the
empty string — it is not non-empty, refuting the claim as stated.  (The
code never checks the returned text for non-emptiness.) -/
theorem C1_counterexample :
    emptyAbcOracle.json "/api/gemini/abc"
        (AITone.fastPayload { params := sampleFastParams, core := initCore }) =
      Except.ok "" ∧
    emptyAbcOracle.blob "/api/abc/audio/wav" (Payload.abcOnly "") = Except.ok [1] ∧
    (applyTrace initCore
        (AITone.onGenerate { params := sampleFastParams, core := initCore }
          emptyAbcOracle)).abc = some "" ∧
    ¬ (∀ a : String,
        (applyTrace initCore
            (AITone.onGenerate { params := sampleFastParams, core := initCore }
              emptyAbcOracle)).abc = some a → a ≠ "") := by
  refine ⟨rfl, rfl, rfl, fun hforall => hforall "" rfl rfl⟩

/-- C1 amended: for every fast generation in which both calls succeed,
the notation call is issued before the render call, every binary call of
the trace is the render call carrying exactly the returned notation text,
the published NotationArtifact equals that text — hence it is non-empty
whenever the server returned non-empty text, though the code does not
itself enforce non-emptiness — and the published AudioAsset is a fresh
live handle holding the bytes returned by that render call; likewise on
the Chatbot page. -/
theorem C1_fast_success :
    (∀ (s : AITone.State) (o : Oracle) (a : String) (w : Bytes),
      s.params.mode = Mode.fast →
      o.json "/api/gemini/abc" (AITone.fastPayload s) = Except.ok a →
      o.blob "/api/abc/audio/wav" (Payload.abcOnly a) = Except.ok w →
      (∃ i j : Nat, i < j ∧
        (AITone.onGenerate s o)[i]? =
          some (Ev.callJSON "/api/gemini/abc" (AITone.fastPayload s)) ∧
        (AITone.onGenerate s o)[j]? =
          some (Ev.callBlob "/api/abc/audio/wav" (Payload.abcOnly a))) ∧
      (∀ ep p, Ev.callBlob ep p ∈ AITone.onGenerate s o →
        ep = "/api/abc/audio/wav" ∧ p = Payload.abcOnly a) ∧
      (applyTrace s.core (AITone.onGenerate s o)).abc = some a ∧
      (a ≠ "" → (applyTrace s.core (AITone.onGenerate s o)).abc ≠ some "" ∧
        (applyTrace s.core (AITone.onGenerate s o)).abc ≠ none) ∧
      (applyTrace s.core (AITone.onGenerate s o)).audioUrl = some s.core.nextHandle ∧
      (s.core.nextHandle, w) ∈ (applyTrace s.core (AITone.onGenerate s o)).live) ∧
    (∀ (s : Chatbot.State) (o : Oracle) (a : String) (w : Bytes),
      o.json "/api/hf/abc" (Chatbot.hfPayload s) = Except.ok a →
      o.blob "/api/abc/audio/wav" (Payload.abcOnly a) = Except.ok w →
      (∃ i j : Nat, i < j ∧
        (Chatbot.onGenerate s o)[i]? =
          some (Ev.callJSON "/api/hf/abc" (Chatbot.hfPayload s)) ∧
        (Chatbot.onGenerate s o)[j]? =
          some (Ev.callBlob "/api/abc/audio/wav" (Payload.abcOnly a))) ∧
      (∀ ep p, Ev.callBlob ep p ∈ Chatbot.onGenerate s o →
        ep = "/api/abc/audio/wav" ∧ p = Payload.abcOnly a) ∧
      (applyTrace s.core (Chatbot.onGenerate s o)).abc = some a ∧
      (applyTrace s.core (Chatbot.onGenerate s o)).audioUrl = some s.core.nextHandle ∧
      (s.core.nextHandle, w) ∈ (applyTrace s.core (Chatbot.onGenerate s o)).live) := by
  constructor
  · intro s o a w hm hj hb
    cases hau : s.core.audioUrl with
    | none =>
      have ht : AITone.onGenerate s o =
          [Ev.setError none, Ev.setLoading true,
           Ev.callJSON "/api/gemini/abc" (AITone.fastPayload s),
           Ev.setAbc (some a), Ev.callBlob "/api/abc/audio/wav" (Payload.abcOnly a),
           Ev.create s.core.nextHandle w,
           Ev.setAudioUrl (some s.core.nextHandle), Ev.setLoading false] := by
        simp [AITone.onGenerate, AITone.runFast, hm, hj, hb, publishEvs, hau]
      rw [ht]
      refine ⟨⟨2, 4, by omega, rfl, rfl⟩, ?_, rfl, ?_, rfl, ?_⟩
      · intro ep p hp
        simp at hp
        exact hp
      · intro ha
        refine ⟨fun hx => ha ?_, fun hx => Option.noConfusion hx⟩
        have : some a = some "" := hx
        exact Option.some.inj this
      · simp [applyTrace, applyEv]
    | some h =>
      have ht : AITone.onGenerate s o =
          [Ev.setError none, Ev.setLoading true,
           Ev.callJSON "/api/gemini/abc" (AITone.fastPayload s),
           Ev.setAbc (some a), Ev.callBlob "/api/abc/audio/wav" (Payload.abcOnly a),
           Ev.revoke h, Ev.create s.core.nextHandle w,
           Ev.setAudioUrl (some s.core.nextHandle), Ev.setLoading false] := by
        simp [AITone.onGenerate, AITone.runFast, hm, hj, hb, publishEvs, hau]
      rw [ht]
      refine ⟨⟨2, 4, by omega, rfl, rfl⟩, ?_, rfl, ?_, rfl, ?_⟩
      · intro ep p hp
        simp at hp
        exact hp
      · intro ha
        refine ⟨fun hx => ha ?_, fun hx => Option.noConfusion hx⟩
        have : some a = some "" := hx
        exact Option.some.inj this
      · simp [applyTrace, applyEv]
  · intro s o a w hj hb
    cases hau : s.core.audioUrl with
    | none =>
      have ht : Chatbot.onGenerate s o =
          [Ev.setError none, Ev.setLoading true,
           Ev.callJSON "/api/hf/abc" (Chatbot.hfPayload s),
           Ev.setAbc (some a), Ev.callBlob "/api/abc/audio/wav" (Payload.abcOnly a),
           Ev.create s.core.nextHandle w,
           Ev.setAudioUrl (some s.core.nextHandle), Ev.setLoading false] := by
        simp [Chatbot.onGenerate, hj, hb, publishEvs, hau]
      rw [ht]
      refine ⟨⟨2, 4, by omega, rfl, rfl⟩, ?_, rfl, rfl, ?_⟩
      · intro ep p hp
        simp at hp
        exact hp
      · simp [applyTrace, applyEv]
    | some h =>
      have ht : Chatbot.onGenerate s o =
          [Ev.setError none, Ev.setLoading true,
           Ev.callJSON "/api/hf/abc" (Chatbot.hfPayload s),
           Ev.setAbc (some a), Ev.callBlob "/api/abc/audio/wav" (Payload.abcOnly a),
           Ev.revoke h, Ev.create s.core.nextHandle w,
           Ev.setAudioUrl (some s.core.nextHandle), Ev.setLoading false] := by
        simp [Chatbot.onGenerate, hj, hb, publishEvs, hau]
      rw [ht]
      refine ⟨⟨2, 4, by omega, rfl, rfl⟩, ?_, rfl, rfl, ?_⟩
      · intro ep p hp
        simp at hp
        exact hp
      · simp [applyTrace, applyEv]

/-- C1 witness: both calls succeed with notation "X:1" over a state
holding a previous result. -/
theorem C1_witness :
    (∃ i j : Nat, i < j ∧
      (AITone.onGenerate { params := sampleFastParams, core := sampleCore } okOracle)[i]? =
        some (Ev.callJSON "/api/gemini/abc"
          (AITone.fastPayload { params := sampleFastParams, core := sampleCore })) ∧
      (AITone.onGenerate { params := sampleFastParams, core := sampleCore } okOracle)[j]? =
        some (Ev.callBlob "/api/abc/audio/wav" (Payload.abcOnly "X:1"))) ∧
    (∀ ep p, Ev.callBlob ep p ∈
        AITone.onGenerate { params := sampleFastParams, core := sampleCore } okOracle →
      ep = "/api/abc/audio/wav" ∧ p = Payload.abcOnly "X:1") ∧
    (applyTrace sampleCore
      (AITone.onGenerate { params := sampleFastParams, core := sampleCore } okOracle)).abc =
      some "X:1" ∧
    ("X:1" ≠ "" →
      (applyTrace sampleCore
        (AITone.onGenerate { params := sampleFastParams, core := sampleCore } okOracle)).abc ≠
        some "" ∧
      (applyTrace sampleCore
        (AITone.onGenerate { params := sampleFastParams, core := sampleCore } okOracle)).abc ≠
        none) ∧
    (applyTrace sampleCore
      (AITone.onGenerate { params := sampleFastParams, core := sampleCore } okOracle)).audioUrl =
      some 1 ∧
    (1, [1, 2]) ∈ (applyTrace sampleCore
      (AITone.onGenerate { params := sampleFastParams, core := sampleCore } okOracle)).live :=
  C1_fast_success.1 { params := sampleFastParams, core := sampleCore } okOracle "X:1" [1, 2]
    rfl rfl rfl

/-- C2 counterexample: a fast generation whose notation call returns
"NEW" and whose render call then fails overwrites the previously
published NotationArtifact "OLD" with the new, incomplete notation — the
generation failed, yet prior state was not left untouched, refuting the
claim as stated. -/
theorem C2_counterexample :
    blobFailOracle.json "/api/gemini/abc"
        (AITone.fastPayload { params := sampleFastParams, core := sampleCore }) =
      Except.ok "NEW" ∧
    sampleCore.abc = some "OLD" ∧
    (applyTrace sampleCore
        (AITone.onGenerate { params := sampleFastParams, core := sampleCore }
          blobFailOracle)).error = some "render failed" ∧
    (applyTrace sampleCore
        (AITone.onGenerate { params := sampleFastParams, core := sampleCore }
          blobFailOracle)).abc = some "NEW" ∧
    (applyTrace sampleCore
        (AITone.onGenerate { params := sampleFastParams, core := sampleCore }
          blobFailOracle)).abc ≠ some "OLD" := by
  refine ⟨rfl, rfl, rfl, rfl, by decide⟩

/-- C2 amended: every failing generation leaves the audio handle, the
live-handle set and the handle counter untouched, clears loading and
publishes only a Failed message — but the published notation is not
always preserved: a direct-mode failure leaves it cleared (runDirect
clears it before its call), and a fast-mode failure leaves it unchanged
only when the notation call itself failed; when the render call fails
after the notation call succeeded, the notation has already been
overwritten with the newly returned text. -/
theorem C2_failure_preserves_audio :
    ∀ (s : AITone.State) (o : Oracle),
      (applyTrace s.core (AITone.onGenerate s o)).error.isSome = true →
      (applyTrace s.core (AITone.onGenerate s o)).audioUrl = s.core.audioUrl ∧
      (applyTrace s.core (AITone.onGenerate s o)).live = s.core.live ∧
      (applyTrace s.core (AITone.onGenerate s o)).nextHandle = s.core.nextHandle ∧
      (applyTrace s.core (AITone.onGenerate s o)).loading = false ∧
      (s.params.mode = Mode.direct →
        (applyTrace s.core (AITone.onGenerate s o)).abc = none) ∧
      (s.params.mode = Mode.fast →
        (∃ e, o.json "/api/gemini/abc" (AITone.fastPayload s) = Except.error e ∧
          (applyTrace s.core (AITone.onGenerate s o)).abc = s.core.abc) ∨
        (∃ a, o.json "/api/gemini/abc" (AITone.fastPayload s) = Except.ok a ∧
          (applyTrace s.core (AITone.onGenerate s o)).abc = some a)) := by
  intro s o herr
  cases hm : s.params.mode with
  | fast =>
    cases hj : o.json "/api/gemini/abc" (AITone.fastPayload s) with
    | error e =>
      have ht : AITone.onGenerate s o =
          [Ev.setError none, Ev.setLoading true,
           Ev.callJSON "/api/gemini/abc" (AITone.fastPayload s),
           Ev.setError (some (errMsg e)), Ev.setLoading false] := by
        simp [AITone.onGenerate, AITone.runFast, hm, hj]
      rw [ht]
      exact ⟨rfl, rfl, rfl, rfl, fun hmd => Mode.noConfusion hmd,
        fun _ => Or.inl ⟨e, rfl, rfl⟩⟩
    | ok a =>
      cases hb : o.blob "/api/abc/audio/wav" (Payload.abcOnly a) with
      | error e =>
        have ht : AITone.onGenerate s o =
            [Ev.setError none, Ev.setLoading true,
             Ev.callJSON "/api/gemini/abc" (AITone.fastPayload s),
             Ev.setAbc (some a), Ev.callBlob "/api/abc/audio/wav" (Payload.abcOnly a),
             Ev.setError (some (errMsg e)), Ev.setLoading false] := by
          simp [AITone.onGenerate, AITone.runFast, hm, hj, hb]
        rw [ht]
        exact ⟨rfl, rfl, rfl, rfl, fun hmd => Mode.noConfusion hmd,
          fun _ => Or.inr ⟨a, rfl, rfl⟩⟩
      | ok wav =>
        cases hau : s.core.audioUrl with
        | none =>
          have ht : AITone.onGenerate s o =
              [Ev.setError none, Ev.setLoading true,
               Ev.callJSON "/api/gemini/abc" (AITone.fastPayload s),
               Ev.setAbc (some a), Ev.callBlob "/api/abc/audio/wav" (Payload.abcOnly a),
               Ev.create s.core.nextHandle wav,
               Ev.setAudioUrl (some s.core.nextHandle), Ev.setLoading false] := by
            simp [AITone.onGenerate, AITone.runFast, hm, hj, hb, publishEvs, hau]
          rw [ht] at herr
          simp [applyTrace, applyEv] at herr
        | some h =>
          have ht : AITone.onGenerate s o =
              [Ev.setError none, Ev.setLoading true,
               Ev.callJSON "/api/gemini/abc" (AITone.fastPayload s),
               Ev.setAbc (some a), Ev.callBlob "/api/abc/audio/wav" (Payload.abcOnly a),
               Ev.revoke h, Ev.create s.core.nextHandle wav,
               Ev.setAudioUrl (some s.core.nextHandle), Ev.setLoading false] := by
            simp [AITone.onGenerate, AITone.runFast, hm, hj, hb, publishEvs, hau]
          rw [ht] at herr
          simp [applyTrace, applyEv] at herr
  | direct =>
    cases hb : o.blob "/api/gemini/audio/wav" (AITone.directPayload s) with
    | error e =>
      have ht : AITone.onGenerate s o =
          [Ev.setError none, Ev.setLoading true, Ev.setAbc none,
           Ev.callBlob "/api/gemini/audio/wav" (AITone.directPayload s),
           Ev.setError (some (errMsg e)), Ev.setLoading false] := by
        simp [AITone.onGenerate, AITone.runDirect, hm, hb]
      rw [ht]
      exact ⟨rfl, rfl, rfl, rfl, fun _ => rfl, fun hmf => Mode.noConfusion hmf⟩
    | ok wav =>
      cases hau : s.core.audioUrl with
      | none =>
        have ht : AITone.onGenerate s o =
            [Ev.setError none, Ev.setLoading true, Ev.setAbc none,
             Ev.callBlob "/api/gemini/audio/wav" (AITone.directPayload s),
             Ev.create s.core.nextHandle wav,
             Ev.setAudioUrl (some s.core.nextHandle), Ev.setLoading false] := by
          simp [AITone.onGenerate, AITone.runDirect, hm, hb, publishEvs, hau]
        rw [ht] at herr
        simp [applyTrace, applyEv] at herr
      | some h =>
        have ht : AITone.onGenerate s o =
            [Ev.setError none, Ev.setLoading true, Ev.setAbc none,
             Ev.callBlob "/api/gemini/audio/wav" (AITone.directPayload s),
             Ev.revoke h, Ev.create s.core.nextHandle wav,
             Ev.setAudioUrl (some s.core.nextHandle), Ev.setLoading false] := by
          simp [AITone.onGenerate, AITone.runDirect, hm, hb, publishEvs, hau]
        rw [ht] at herr
        simp [applyTrace, applyEv] at herr

/-- C2 witness: a failing direct generation over a state holding a
previous notation and audio handle. -/
theorem C2_witness :
    (applyTrace sampleCore
      (AITone.onGenerate { params := sampleDirectParams, core := sampleCore }
        blobFailOracle)).audioUrl = sampleCore.audioUrl ∧
    (applyTrace sampleCore
      (AITone.onGenerate { params := sampleDirectParams, core := sampleCore }
        blobFailOracle)).live = sampleCore.live ∧
    (applyTrace sampleCore
      (AITone.onGenerate { params := sampleDirectParams, core := sampleCore }
        blobFailOracle)).nextHandle = sampleCore.nextHandle ∧
    (applyTrace sampleCore
      (AITone.onGenerate { params := sampleDirectParams, core := sampleCore }
        blobFailOracle)).loading = false ∧
    (({ params := sampleDirectParams, core := sampleCore } : AITone.State).params.mode =
        Mode.direct →
      (applyTrace sampleCore
        (AITone.onGenerate { params := sampleDirectParams, core := sampleCore }
          blobFailOracle)).abc = none) ∧
    (({ params := sampleDirectParams, core := sampleCore } : AITone.State).params.mode =
        Mode.fast →
      (∃ e, blobFailOracle.json "/api/gemini/abc"
          (AITone.fastPayload { params := sampleDirectParams, core := sampleCore }) =
            Except.error e ∧
        (applyTrace sampleCore
          (AITone.onGenerate { params := sampleDirectParams, core := sampleCore }
            blobFailOracle)).abc = sampleCore.abc) ∨
      (∃ a, blobFailOracle.json "/api/gemini/abc"
          (AITone.fastPayload { params := sampleDirectParams, core := sampleCore }) =
            Except.ok a ∧
        (applyTrace sampleCore
          (AITone.onGenerate { params := sampleDirectParams, core := sampleCore }
            blobFailOracle)).abc = some a)) :=
  C2_failure_preserves_audio { params := sampleDirectParams, core := sampleCore }
    blobFailOracle rfl

/-- C8 counterexample: when the published NotationArtifact is present but
equal to the empty string (which a fast generation can publish, see C1),
export is a no-op — the JavaScript guard if (!abc) treats the empty
string as absent — so no export call is made although the claim requires
one whenever notation is present. -/
theorem C8_counterexample :
    ({ initCore with abc := some "" } : Core).abc.isSome = true ∧
    AITone.onDownload
      { params := sampleFastParams, core := { initCore with abc := some "" } }
      okOracle Kind.wav = [] ∧
    netCalls (AITone.onDownload
      { params := sampleFastParams, core := { initCore with abc := some "" } }
      okOracle Kind.wav) = [] := by
  exact ⟨rfl, rfl, rfl⟩

/-- C8 amended: for every export requested while the published notation
is present and non-empty, the export endpoint for the requested kind is
called with exactly the current notation, the returned bytes are offered
as a download under the fixed per-kind filename (ai-tone.wav or
ai-tone.mid) through a transient object URL that is revoked immediately,
and the published session state — notation, audio handle, error, loading,
and (as the transient handle is fresh) the live-handle set — is unchanged
by the export. -/
theorem C8_export_with_abc :
    ∀ (s : AITone.State) (o : Oracle) (k : Kind) (a : String) (b : Bytes),
      s.core.abc = some a → a ≠ "" →
      o.blob (exportEndpoint k) (Payload.abcOnly a) = Except.ok b →
      AITone.onDownload s o k =
        [Ev.callBlob (exportEndpoint k) (Payload.abcOnly a),
         Ev.create s.core.nextHandle b,
         Ev.download (AITone.dlName k) b,
         Ev.revoke s.core.nextHandle] ∧
      AITone.dlName Kind.wav = "ai-tone.wav" ∧
      AITone.dlName Kind.midi = "ai-tone.mid" ∧
      (applyTrace s.core (AITone.onDownload s o k)).abc = s.core.abc ∧
      (applyTrace s.core (AITone.onDownload s o k)).audioUrl = s.core.audioUrl ∧
      (applyTrace s.core (AITone.onDownload s o k)).error = s.core.error ∧
      (applyTrace s.core (AITone.onDownload s o k)).loading = s.core.loading ∧
      ((∀ p ∈ s.core.live, p.1 < s.core.nextHandle) →
        (applyTrace s.core (AITone.onDownload s o k)).live = s.core.live) := by
  intro s o k a b ha hne hb
  have ht : AITone.onDownload s o k =
      [Ev.callBlob (exportEndpoint k) (Payload.abcOnly a),
       Ev.create s.core.nextHandle b,
       Ev.download (AITone.dlName k) b,
       Ev.revoke s.core.nextHandle] := by
    simp [AITone.onDownload, ha, hne, hb, downloadBlob]
  rw [ht]
  refine ⟨rfl, rfl, rfl, rfl, rfl, rfl, rfl, ?_⟩
  intro hbound
  simp only [applyTrace, List.foldl, applyEv]
  rw [List.filter_append]
  have h1 : s.core.live.filter (fun p => p.1 != s.core.nextHandle) = s.core.live := by
    rw [List.filter_eq_self]
    intro p hp
    simpa using Nat.ne_of_lt (hbound p hp)
  simp [h1]

/-- C8 witness: export to WAV of the published notation "OLD" with a
succeeding binary endpoint. -/
theorem C8_witness :
    AITone.onDownload { params := sampleFastParams, core := sampleCore } okOracle Kind.wav =
      [Ev.callBlob (exportEndpoint Kind.wav) (Payload.abcOnly "OLD"),
       Ev.create 1 [1, 2], Ev.download (AITone.dlName Kind.wav) [1, 2], Ev.revoke 1] ∧
    AITone.dlName Kind.wav = "ai-tone.wav" ∧
    AITone.dlName Kind.midi = "ai-tone.mid" ∧
    (applyTrace sampleCore
      (AITone.onDownload { params := sampleFastParams, core := sampleCore }
        okOracle Kind.wav)).abc = sampleCore.abc ∧
    (applyTrace sampleCore
      (AITone.onDownload { params := sampleFastParams, core := sampleCore }
        okOracle Kind.wav)).audioUrl = sampleCore.audioUrl ∧
    (applyTrace sampleCore
      (AITone.onDownload { params := sampleFastParams, core := sampleCore }
        okOracle Kind.wav)).error = sampleCore.error ∧
    (applyTrace sampleCore
      (AITone.onDownload { params := sampleFastParams, core := sampleCore }
        okOracle Kind.wav)).loading = sampleCore.loading ∧
    ((∀ p ∈ sampleCore.live, p.1 < sampleCore.nextHandle) →
      (applyTrace sampleCore
        (AITone.onDownload { params := sampleFastParams, core := sampleCore }
          okOracle Kind.wav)).live = sampleCore.live) :=
  C8_export_with_abc { params := sampleFastParams, core := sampleCore } okOracle Kind.wav
    "OLD" [1, 2] rfl (by decide) rfl

/-- C9 counterexample: in direct mode the previously published notation
"OLD" is cleared immediately after entering Generating — three events
into the trace the session is still loading, the network call has not
resolved, and the notation is already gone, refuting the claim that
previously published results remain until the new generation completes
or fails. -/
theorem C9_counterexample :
    sampleCore.abc = some "OLD" ∧
    (applyTrace sampleCore
        ((AITone.onGenerate { params := sampleDirectParams, core := sampleCore }
            okOracle).take 3)).loading = true ∧
    (applyTrace sampleCore
        ((AITone.onGenerate { params := sampleDirectParams, core := sampleCore }
            okOracle).take 3)).abc = none := by
  exact ⟨rfl, rfl, rfl⟩

/-- C9 amended: at the instant of entering Generating (after the first
two events of any generation) the prior Failed message is cleared and
nothing else changes — notation and audio handle are untouched; the audio
handle is moreover never changed at any point of the trace except to the
freshly published handle of a generation whose binary call succeeded; but
previously published notation does not always remain until completion:
a direct-mode generation clears it with its third event, before its
network call resolves. -/
theorem C9_entering_generating :
    ∀ (s : AITone.State) (o : Oracle),
      applyTrace s.core ((AITone.onGenerate s o).take 2) =
        { s.core with error := none, loading := true } ∧
      (∀ n : Nat,
        (applyTrace s.core ((AITone.onGenerate s o).take n)).audioUrl = s.core.audioUrl ∨
        ((applyTrace s.core (AITone.onGenerate s o)).error = none ∧
          (applyTrace s.core ((AITone.onGenerate s o).take n)).audioUrl =
            some s.core.nextHandle)) ∧
      (s.params.mode = Mode.direct →
        (applyTrace s.core ((AITone.onGenerate s o).take 3)).abc = none) := by
  intro s o
  refine ⟨rfl, fun n => ?_, fun hm => ?_⟩
  · rcases audioUrl_applyTrace s.core ((AITone.onGenerate s o).take n) with h | ⟨v, hv, hv2⟩
    · exact Or.inl h
    · have hvt : Ev.setAudioUrl v ∈ AITone.onGenerate s o :=
        List.take_subset n (AITone.onGenerate s o) hv
      cases hm : s.params.mode with
      | fast =>
        cases hj : o.json "/api/gemini/abc" (AITone.fastPayload s) with
        | error e =>
          have ht : AITone.onGenerate s o =
              [Ev.setError none, Ev.setLoading true,
               Ev.callJSON "/api/gemini/abc" (AITone.fastPayload s),
               Ev.setError (some (errMsg e)), Ev.setLoading false] := by
            simp [AITone.onGenerate, AITone.runFast, hm, hj]
          rw [ht] at hvt
          simp at hvt
        | ok a =>
          cases hb : o.blob "/api/abc/audio/wav" (Payload.abcOnly a) with
          | error e =>
            have ht : AITone.onGenerate s o =
                [Ev.setError none, Ev.setLoading true,
                 Ev.callJSON "/api/gemini/abc" (AITone.fastPayload s),
                 Ev.setAbc (some a), Ev.callBlob "/api/abc/audio/wav" (Payload.abcOnly a),
                 Ev.setError (some (errMsg e)), Ev.setLoading false] := by
              simp [AITone.onGenerate, AITone.runFast, hm, hj, hb]
            rw [ht] at hvt
            simp at hvt
          | ok wav =>
            cases hau : s.core.audioUrl with
            | none =>
              have ht : AITone.onGenerate s o =
                  [Ev.setError none, Ev.setLoading true,
                   Ev.callJSON "/api/gemini/abc" (AITone.fastPayload s),
                   Ev.setAbc (some a), Ev.callBlob "/api/abc/audio/wav" (Payload.abcOnly a),
                   Ev.create s.core.nextHandle wav,
                   Ev.setAudioUrl (some s.core.nextHandle), Ev.setLoading false] := by
                simp [AITone.onGenerate, AITone.runFast, hm, hj, hb, publishEvs, hau]
              rw [ht] at hvt
              simp at hvt
              exact Or.inr ⟨by rw [ht]; rfl, by rw [hvt] at hv2; exact hv2⟩
            | some h =>
              have ht : AITone.onGenerate s o =
                  [Ev.setError none, Ev.setLoading true,
                   Ev.callJSON "/api/gemini/abc" (AITone.fastPayload s),
                   Ev.setAbc (some a), Ev.callBlob "/api/abc/audio/wav" (Payload.abcOnly a),
                   Ev.revoke h, Ev.create s.core.nextHandle wav,
                   Ev.setAudioUrl (some s.core.nextHandle), Ev.setLoading false] := by
                simp [AITone.onGenerate, AITone.runFast, hm, hj, hb, publishEvs, hau]
              rw [ht] at hvt
              simp at hvt
              exact Or.inr ⟨by rw [ht]; rfl, by rw [hvt] at hv2; exact hv2⟩
      | direct =>
        cases hb : o.blob "/api/gemini/audio/wav" (AITone.directPayload s) with
        | error e =>
          have ht : AITone.onGenerate s o =
              [Ev.setError none, Ev.setLoading true, Ev.setAbc none,
               Ev.callBlob "/api/gemini/audio/wav" (AITone.directPayload s),
               Ev.setError (some (errMsg e)), Ev.setLoading false] := by
            simp [AITone.onGenerate, AITone.runDirect, hm, hb]
          rw [ht] at hvt
          simp at hvt
        | ok wav =>
          cases hau : s.core.audioUrl with
          | none =>
            have ht : AITone.onGenerate s o =
                [Ev.setError none, Ev.setLoading true, Ev.setAbc none,
                 Ev.callBlob "/api/gemini/audio/wav" (AITone.directPayload s),
                 Ev.create s.core.nextHandle wav,
                 Ev.setAudioUrl (some s.core.nextHandle), Ev.setLoading false] := by
              simp [AITone.onGenerate, AITone.runDirect, hm, hb, publishEvs, hau]
            rw [ht] at hvt
            simp at hvt
            exact Or.inr ⟨by rw [ht]; rfl, by rw [hvt] at hv2; exact hv2⟩
          | some h =>
            have ht : AITone.onGenerate s o =
                [Ev.setError none, Ev.setLoading true, Ev.setAbc none,
                 Ev.callBlob "/api/gemini/audio/wav" (AITone.directPayload s),
                 Ev.revoke h, Ev.create s.core.nextHandle wav,
                 Ev.setAudioUrl (some s.core.nextHandle), Ev.setLoading false] := by
              simp [AITone.onGenerate, AITone.runDirect, hm, hb, publishEvs, hau]
            rw [ht] at hvt
            simp at hvt
            exact Or.inr ⟨by rw [ht]; rfl, by rw [hvt] at hv2; exact hv2⟩
  · cases hb : o.blob "/api/gemini/audio/wav" (AITone.directPayload s) with
    | error e =>
      have ht3 : (AITone.onGenerate s o).take 3 =
          [Ev.setError none, Ev.setLoading true, Ev.setAbc none] := by
        simp [AITone.onGenerate, AITone.runDirect, hm, hb]
      rw [ht3]
      rfl
    | ok wav =>
      have ht3 : (AITone.onGenerate s o).take 3 =
          [Ev.setError none, Ev.setLoading true, Ev.setAbc none] := by
        simp [AITone.onGenerate, AITone.runDirect, hm, hb]
      rw [ht3]
      rfl

/-- C9 witness: a fast generation over a state carrying a prior Failed
message and published results. -/
theorem C9_witness :
    applyTrace { sampleCore with error := some "old failure" }
        ((AITone.onGenerate
            { params := sampleFastParams,
              core := { sampleCore with error := some "old failure" } } okOracle).take 2) =
      { { sampleCore with error := some "old failure" } with
          error := none, loading := true } ∧
    (∀ n : Nat,
      (applyTrace { sampleCore with error := some "old failure" }
          ((AITone.onGenerate
              { params := sampleFastParams,
                core := { sampleCore with error := some "old failure" } }
            okOracle).take n)).audioUrl =
        ({ sampleCore with error := some "old failure" } : Core).audioUrl ∨
      ((applyTrace { sampleCore with error := some "old failure" }
          (AITone.onGenerate
            { params := sampleFastParams,
              core := { sampleCore with error := some "old failure" } }
            okOracle)).error = none ∧
        (applyTrace { sampleCore with error := some "old failure" }
            ((AITone.onGenerate
                { params := sampleFastParams,
                  core := { sampleCore with error := some "old failure" } }
              okOracle).take n)).audioUrl = some 1)) ∧
    (({ params := sampleFastParams,
        core := { sampleCore with error := some "old failure" } } : AITone.State).params.mode =
        Mode.direct →
      (applyTrace { sampleCore with error := some "old failure" }
          ((AITone.onGenerate
              { params := sampleFastParams,
                core := { sampleCore with error := some "old failure" } }
            okOracle).take 3)).abc = none) :=
  C9_entering_generating
    { params := sampleFastParams, core := { sampleCore with error := some "old failure" } }
    okOracle

end ToneComposer
